import Mathlib

/-!
Verification of the HTML Scraper API (`src/app.py`).

The program is a FastAPI service with one substantive endpoint, `POST /scrape`
(`scrape_url`), which launches a headless browser via Playwright, navigates to
a URL, optionally waits for a CSS selector, optionally sleeps, extracts the
rendered HTML and returns it.  We shallowly embed the handler as a pure
function from the per-request request data and an *environment* (the outcomes
of the external browser/library calls the handler makes, in program order)
to an HTTP result together with a trace of observable events (browser
launches/closes, navigation calls with their deadlines, sleeps, log lines).
Exceptions are modelled explicitly and the `try`/`except`/`finally`
structure of the Python code is translated clause by clause.
-/

namespace HtmlScraper

/-- A Python exception, as far as the handler can distinguish them:
`asyncioTimeoutError` models `asyncio.TimeoutError` (matched by the first
`except` clause at line 116); `httpException` models
`fastapi.HTTPException` (a subclass of `Exception`, so it is matched by the
blanket `except Exception` clause at line 121); `pythonError` models every
other exception, carrying its `str(e)` message. -/
inductive Exn where
  | asyncioTimeoutError
  | httpException (statusCode : Int) (detail : String)
      (headers : List (String × String))
  | pythonError (msg : String)
deriving DecidableEq, Repr

/-- Python str(e) for a modelled exception.  `str()` of a bare
`asyncio.TimeoutError()` is the empty string; Starlette's `HTTPException`
prints as `"<status>: <detail>"`. -/
def exnStr : Exn → String
  | .asyncioTimeoutError => ""
  | .httpException s d _ => toString s ++ ": " ++ d
  | .pythonError m => m

/-- The `ScrapeRequest` pydantic model (src/app.py lines 22-26) after
validation.  `wait_time` and `timeout` are `Optional[int]` in Python, so a
JSON `null` parses to `none`; the defaults (`3` and `30`) are applied by the
parser below only when the field is absent.  `url` is the string form of the
validated `HttpUrl`. -/
structure ScrapeRequest where
  url : String
  wait_for_selector : Option String
  wait_time : Option Int
  timeout : Option Int
deriving DecidableEq, Repr

/-- The `ScrapeResponse` pydantic model (src/app.py lines 28-33). -/
structure ScrapeResponse where
  html : String
  url : String
  status_code : Int
  success : Bool
  error : Option String
deriving DecidableEq, Repr

/-- A JSON object field as pydantic sees it: absent from the body, present
as `null`, or present with a value of the right type. -/
inductive JField (α : Type) where
  | absent
  | null
  | given (a : α)
deriving DecidableEq, Repr

/-- The raw (well-typed) JSON body of a `/scrape` request, before pydantic
validation applies defaults. -/
structure RawBody where
  url : JField String
  wait_for_selector : JField String
  wait_time : JField Int
  timeout : JField Int
deriving DecidableEq, Repr

/-- Model of pydantic's `HttpUrl` check: the string must be an absolute
http(s) URL.  (Pydantic checks more — host syntax, length — but the scheme
requirement is all the development relies on.) -/
def isHttpUrl (u : String) : Bool :=
  (List.isPrefixOf "http://".data u.data && u.length > 7) ||
  (List.isPrefixOf "https://".data u.data && u.length > 8)

/-- Pydantic validation of the request body (the `ScrapeRequest` model,
src/app.py lines 22-26).  `url : HttpUrl` is required; the three optional
fields default to `None`, `3` and `30` respectively when absent, and parse
`null` to `None`.  No field carries a sign or range constraint. -/
def parseScrapeRequest (raw : RawBody) : Except Unit ScrapeRequest :=
  match raw.url with
  | .absent => .error ()
  | .null => .error ()
  | .given u =>
    if isHttpUrl u then
      .ok { url := u
            wait_for_selector :=
              match raw.wait_for_selector with
              | .absent => none
              | .null => none
              | .given s => some s
            wait_time :=
              match raw.wait_time with
              | .absent => some 3
              | .null => none
              | .given w => some w
            timeout :=
              match raw.timeout with
              | .absent => some 30
              | .null => none
              | .given t => some t }
    else .error ()

/-- Observable events of one request's execution, in order. -/
inductive Event where
  | launchBrowser
  | closeBrowser
  | gotoCalled (timeoutMs : Int)
  | waitSelectorCalled (selector : String) (timeoutMs : Int)
  | sleepCalled (seconds : Int)
  | logWarning (msg : String)
  | logError (msg : String)
deriving DecidableEq, Repr

instance {ε α : Type} [DecidableEq ε] [DecidableEq α] :
    DecidableEq (Except ε α) := fun a b =>
  match a, b with
  | .ok x, .ok y =>
      if h : x = y then .isTrue (by rw [h]) else .isFalse (by simp [h])
  | .error x, .error y =>
      if h : x = y then .isTrue (by rw [h]) else .isFalse (by simp [h])
  | .ok _, .error _ => .isFalse (by simp)
  | .error _, .ok _ => .isFalse (by simp)

/-- The environment of one request: the outcome of each external call the
handler makes, in program order.  `goto` returning `.ok none` models
`page.goto` returning `None` (no response object); an `.error e` models the
call raising exception `e`. -/
structure Env where
  startPlaywright : Except Exn Unit
  launch : Except Exn Unit
  newPage : Except Exn Unit
  setViewport : Except Exn Unit
  goto : Except Exn (Option Int)
  waitForSelector : Except Exn Unit
  sleep : Except Exn Unit
  content : Except Exn String
  close : Except Exn Unit
deriving DecidableEq, Repr

/-- Python truthiness of `request.wait_for_selector` (line 90): `None` and
the empty string are falsy. -/
def selectorTruthy : Option String → Bool
  | none => false
  | some s => s ≠ ""

/-- The condition of line 100, `if request.wait_time and request.wait_time > 0`:
`None` and `0` are falsy, then the comparison requires positivity. -/
def sleepTruthy : Option Int → Bool
  | none => false
  | some w => w ≠ 0 && w > 0

/-- Lines 90-97: if a selector was provided (and truthy), call
`page.wait_for_selector` with a `timeout * 1000` ms budget; any exception it
raises is caught by the inner `try`/`except`, logged as a warning, and
execution continues.  Returns the events only — this step never propagates
a failure. -/
def selectorStep (env : Env) (req : ScrapeRequest) (tms : Int) : List Event :=
  match req.wait_for_selector with
  | none => []
  | some s =>
    if s ≠ "" then
      Event.waitSelectorCalled s tms ::
        (match env.waitForSelector with
         | .ok _ => []
         | .error e =>
             [Event.logWarning ("Selector " ++ s ++ " not found: " ++ exnStr e)])
    else []

/-- Lines 69-111, the body of the inner `try`: create the page, set the
viewport, navigate, check for a null response, best-effort selector wait,
optional sleep, extract content, build the `ScrapeResponse`. -/
def innerBody (env : Env) (req : ScrapeRequest) :
    Except Exn ScrapeResponse × List Event :=
  match env.newPage with
  | .error e => (.error e, [])
  | .ok _ =>
  match env.setViewport with
  | .error e => (.error e, [])
  | .ok _ =>
  match req.timeout with
  | none =>
      -- line 79: `request.timeout * 1000` with `timeout = None` raises
      -- TypeError before `page.goto` is called
      (.error (.pythonError
        "unsupported operand type(s) for *: NoneType and int"), [])
  | some t =>
    let ev0 := [Event.gotoCalled (t * 1000)]
    match env.goto with
    | .error e => (.error e, ev0)
    | .ok none =>
        -- lines 83-87
        (.error (.httpException 400 "Failed to load the page" []), ev0)
    | .ok (some st) =>
      let ev1 := ev0 ++ selectorStep env req (t * 1000)
      if sleepTruthy req.wait_time then
        match req.wait_time with
        | none => (.error (.pythonError "unreachable"), ev1)
        | some w =>
          let ev2 := ev1 ++ [Event.sleepCalled w]
          match env.sleep with
          | .error e => (.error e, ev2)
          | .ok _ =>
            match env.content with
            | .error e => (.error e, ev2)
            | .ok h =>
                (.ok { html := h, url := req.url, status_code := st
                       success := true, error := none }, ev2)
      else
        match env.content with
        | .error e => (.error e, ev1)
        | .ok h =>
            (.ok { html := h, url := req.url, status_code := st
                   success := true, error := none }, ev1)

/-- Lines 113-114: run the inner body under `try ... finally:
await browser.close()`.  The close call always happens; if it raises, its
exception replaces the body's outcome (Python `finally` semantics). -/
def tryFinallyClose (env : Env)
    (body : Except Exn ScrapeResponse × List Event) :
    Except Exn ScrapeResponse × List Event :=
  let evs := body.2 ++ [Event.closeBrowser]
  match env.close with
  | .ok _ => (body.1, evs)
  | .error e => (.error e, evs)

/-- Lines 54-114: the `async with async_playwright()` scope — start
Playwright, launch the browser, then the inner `try`/`finally`.  If the
launch itself fails, no browser exists and the `finally` is never entered. -/
def scrapeCore (env : Env) (req : ScrapeRequest) :
    Except Exn ScrapeResponse × List Event :=
  match env.startPlaywright with
  | .error e => (.error e, [])
  | .ok _ =>
  match env.launch with
  | .error e => (.error e, [])
  | .ok _ =>
    let inner := innerBody env req
    tryFinallyClose env (inner.1, Event.launchBrowser :: inner.2)

/-- Python `str()` of an `Optional[int]` (for the f-string at line 119). -/
def pyStrOptInt : Option Int → String
  | none => "None"
  | some t => toString t

/-- Lines 53-126: the whole `scrape_url` handler body.  The outer
`except asyncio.TimeoutError` clause maps that exception to HTTP 408; the
blanket `except Exception` clause logs the error with the URL and maps
every other exception — including an `HTTPException` raised inside the
`try` — to HTTP 500 with the exception's message in the detail. -/
def scrape_url (env : Env) (req : ScrapeRequest) :
    Except Exn ScrapeResponse × List Event :=
  match scrapeCore env req with
  | (.ok resp, evs) => (.ok resp, evs)
  | (.error .asyncioTimeoutError, evs) =>
      (.error (.httpException 408
        ("Request timeout after " ++ pyStrOptInt req.timeout ++ " seconds")
        []), evs)
  | (.error e, evs) =>
      (.error (.httpException 500 ("Scraping failed: " ++ exnStr e) []),
       evs ++ [Event.logError
         ("Scraping error for " ++ req.url ++ ": " ++ exnStr e)])

/-- The HTTP response the client sees: a 200 with a `ScrapeResponse` body,
or an error status with a `detail` message and extra headers. -/
inductive HttpResult where
  | ok (resp : ScrapeResponse)
  | err (status : Int) (detail : String) (headers : List (String × String))
deriving DecidableEq, Repr

/-- The HTTP status of a result. -/
def HttpResult.statusOf : HttpResult → Int
  | .ok _ => 200
  | .err s _ _ => s

/-- The full `/scrape` request pipeline.  `auth` is the bearer credential
extracted from the `Authorization` header, or `none` when the header is
missing or not a well-formed `Bearer` header.  FastAPI solves the security
dependency chain (`security = HTTPBearer()` at line 15, then `verify_token`
at lines 35-43) before validating the body model.  `HTTPBearer` with its
default `auto_error=True` rejects a missing/malformed header itself with
HTTP 403 `Not authenticated` (and no `WWW-Authenticate` header) before
`verify_token` runs; `verify_token` rejects a present-but-wrong credential
with HTTP 401 and a `WWW-Authenticate: Bearer` header.  A body that fails
model validation yields 422. -/
def scrapeEndpoint (secret : String) (env : Env) (auth : Option String)
    (raw : RawBody) : HttpResult × List Event :=
  match auth with
  | none => (.err 403 "Not authenticated" [], [])
  | some cred =>
    if cred ≠ secret then
      (.err 401 "Invalid authentication token"
        [("WWW-Authenticate", "Bearer")], [])
    else
      match parseScrapeRequest raw with
      | .error _ => (.err 422 "Validation error" [], [])
      | .ok req =>
        match scrape_url env req with
        | (.ok resp, evs) => (.ok resp, evs)
        | (.error (.httpException s d h), evs) => (.err s d h, evs)
        | (.error _, evs) => (.err 500 "Internal Server Error" [], evs)

/-- Whether an event is a browser launch. -/
def isLaunchEv : Event → Bool
  | .launchBrowser => true
  | _ => false

/-- Whether an event is a browser-close call. -/
def isCloseEv : Event → Bool
  | .closeBrowser => true
  | _ => false

/-- Whether an event is a navigation (`page.goto`) call. -/
def isGotoEv : Event → Bool
  | .gotoCalled _ => true
  | _ => false

@[simp] lemma isLaunchEv_eq_true {e : Event} :
    isLaunchEv e = true ↔ e = .launchBrowser := by
  cases e <;> simp [isLaunchEv]

@[simp] lemma isCloseEv_eq_true {e : Event} :
    isCloseEv e = true ↔ e = .closeBrowser := by
  cases e <;> simp [isCloseEv]

@[simp] lemma isGotoEv_eq_true {e : Event} :
    isGotoEv e = true ↔ ∃ ms, e = .gotoCalled ms := by
  cases e <;> simp [isGotoEv]

/-- Number of browser launches in a trace. -/
def countLaunch (evs : List Event) : Nat := (evs.filter isLaunchEv).length

/-- Number of browser-close calls in a trace. -/
def countClose (evs : List Event) : Nat := (evs.filter isCloseEv).length

/-- Number of navigation (`page.goto`) calls in a trace. -/
def countGoto (evs : List Event) : Nat := (evs.filter isGotoEv).length

@[simp] lemma countLaunch_nil : countLaunch [] = 0 := rfl

@[simp] lemma countClose_nil : countClose [] = 0 := rfl

@[simp] lemma countGoto_nil : countGoto [] = 0 := rfl

@[simp] lemma countLaunch_append (a b : List Event) :
    countLaunch (a ++ b) = countLaunch a + countLaunch b := by
  simp [countLaunch, List.filter_append]

@[simp] lemma countClose_append (a b : List Event) :
    countClose (a ++ b) = countClose a + countClose b := by
  simp [countClose, List.filter_append]

@[simp] lemma countGoto_append (a b : List Event) :
    countGoto (a ++ b) = countGoto a + countGoto b := by
  simp [countGoto, List.filter_append]

/-! Fixtures used by the concrete (witness / counterexample) theorems. -/

/-- An environment in which every external call succeeds and navigation
returns an HTTP 200 response. -/
def okEnv : Env :=
  { startPlaywright := .ok (), launch := .ok (), newPage := .ok ()
    setViewport := .ok (), goto := .ok (some 200), waitForSelector := .ok ()
    sleep := .ok (), content := .ok "<html><body>hi</body></html>"
    close := .ok () }

/-- A request body giving only the URL: every optional field takes its
pydantic default. -/
def rawBase : RawBody :=
  { url := .given "https://example.com", wait_for_selector := .absent
    wait_time := .absent, timeout := .absent }

/-- The parsed form of `rawBase`. -/
def reqBase : ScrapeRequest :=
  { url := "https://example.com", wait_for_selector := none
    wait_time := some 3, timeout := some 30 }

end HtmlScraper

namespace HtmlScraper

/-! ### Trace characterization lemmas -/

/-- Every event emitted by the selector-wait step is the wait itself (with
the budget it was called with) or a warning log line. -/
lemma mem_selectorStep {env : Env} {req : ScrapeRequest} {tms : Int}
    {e : Event} (h : e ∈ selectorStep env req tms) :
    (∃ s, req.wait_for_selector = some s ∧ e = .waitSelectorCalled s tms) ∨
    ∃ m, e = .logWarning m := by
  unfold selectorStep at h
  cases hsel : req.wait_for_selector with
  | none => rw [hsel] at h; simp at h
  | some s =>
    rw [hsel] at h
    by_cases hs : s = ""
    · simp [hs] at h
    · simp only [hs, if_pos, ne_eq, not_false_eq_true, if_true,
        List.mem_cons] at h
      rcases h with h | h
      · exact Or.inl ⟨s, rfl, h⟩
      · cases hw : env.waitForSelector with
        | ok _ => rw [hw] at h; simp at h
        | error ex => rw [hw] at h; simp at h; exact Or.inr ⟨_, h⟩

/-- Every event emitted by the inner `try` body is a navigation call with
budget `timeout * 1000`, a selector wait with the same budget, a sleep of a
positive `wait_time`, or a warning log line; in particular the body only
emits events when `timeout` is a real integer. -/
lemma mem_innerBody {env : Env} {req : ScrapeRequest} {e : Event}
    (h : e ∈ (innerBody env req).2) :
    ∃ t, req.timeout = some t ∧
      (e = .gotoCalled (t * 1000) ∨
       (∃ s, req.wait_for_selector = some s ∧
          e = .waitSelectorCalled s (t * 1000)) ∨
       (∃ w, req.wait_time = some w ∧ 0 < w ∧ e = .sleepCalled w) ∨
       ∃ m, e = .logWarning m) := by
  unfold innerBody at h
  cases hnp : env.newPage with
  | error _ => rw [hnp] at h; simp at h
  | ok _ =>
  rw [hnp] at h
  cases hvp : env.setViewport with
  | error _ => rw [hvp] at h; simp at h
  | ok _ =>
  rw [hvp] at h
  cases htm : req.timeout with
  | none => rw [htm] at h; simp at h
  | some t =>
  rw [htm] at h
  refine ⟨t, rfl, ?_⟩
  cases hg : env.goto with
  | error _ => rw [hg] at h; simp at h; exact Or.inl h
  | ok r =>
  rw [hg] at h
  cases r with
  | none => simp at h; exact Or.inl h
  | some st =>
  simp only at h
  by_cases hsl : sleepTruthy req.wait_time
  · rw [if_pos hsl] at h
    cases hwt : req.wait_time with
    | none => rw [hwt] at hsl; simp [sleepTruthy] at hsl
    | some w =>
      rw [hwt] at h hsl
      have hwpos : 0 < w := by
        simp [sleepTruthy] at hsl; omega
      have hmem :
          e ∈ ([Event.gotoCalled (t * 1000)] ++
                selectorStep env req (t * 1000)) ++ [Event.sleepCalled w] := by
        cases hslp : env.sleep with
        | error _ => rw [hslp] at h; simpa using h
        | ok _ =>
          rw [hslp] at h
          cases hct : env.content with
          | error _ => rw [hct] at h; simpa using h
          | ok _ => rw [hct] at h; simpa using h
      simp only [List.mem_append, List.mem_singleton] at hmem
      rcases hmem with (h | h) | h
      · exact Or.inl h
      · rcases mem_selectorStep h with ⟨s, hs, he⟩ | ⟨m, he⟩
        · exact Or.inr (Or.inl ⟨s, hs, he⟩)
        · exact Or.inr (Or.inr (Or.inr ⟨m, he⟩))
      · exact Or.inr (Or.inr (Or.inl ⟨w, rfl, hwpos, h⟩))
  · rw [if_neg hsl] at h
    have hmem :
        e ∈ [Event.gotoCalled (t * 1000)] ++ selectorStep env req (t * 1000) := by
      cases hct : env.content with
      | error _ => rw [hct] at h; simpa using h
      | ok _ => rw [hct] at h; simpa using h
    simp only [List.mem_append, List.mem_singleton] at hmem
    rcases hmem with h | h
    · exact Or.inl h
    · rcases mem_selectorStep h with ⟨s, hs, he⟩ | ⟨m, he⟩
      · exact Or.inr (Or.inl ⟨s, hs, he⟩)
      · exact Or.inr (Or.inr (Or.inr ⟨m, he⟩))

@[simp] lemma countLaunch_cons (e : Event) (l : List Event) :
    countLaunch (e :: l) =
      (if isLaunchEv e then 1 else 0) + countLaunch l := by
  simp only [countLaunch, List.filter_cons]
  split <;> simp <;> omega

@[simp] lemma countClose_cons (e : Event) (l : List Event) :
    countClose (e :: l) =
      (if isCloseEv e then 1 else 0) + countClose l := by
  simp only [countClose, List.filter_cons]
  split <;> simp <;> omega

@[simp] lemma countGoto_cons (e : Event) (l : List Event) :
    countGoto (e :: l) =
      (if isGotoEv e then 1 else 0) + countGoto l := by
  simp only [countGoto, List.filter_cons]
  split <;> simp <;> omega

/-- The inner body never launches a browser. -/
lemma countLaunch_innerBody (env : Env) (req : ScrapeRequest) :
    countLaunch (innerBody env req).2 = 0 := by
  unfold countLaunch
  rw [List.length_eq_zero, List.filter_eq_nil_iff]
  intro a ha
  rcases mem_innerBody ha with ⟨t, _, h | ⟨s, _, h⟩ | ⟨w, _, _, h⟩ | ⟨m, h⟩⟩ <;>
    subst h <;> simp [isLaunchEv]

/-- The inner body never closes a browser (the close belongs to the
`finally`). -/
lemma countClose_innerBody (env : Env) (req : ScrapeRequest) :
    countClose (innerBody env req).2 = 0 := by
  unfold countClose
  rw [List.length_eq_zero, List.filter_eq_nil_iff]
  intro a ha
  rcases mem_innerBody ha with ⟨t, _, h | ⟨s, _, h⟩ | ⟨w, _, _, h⟩ | ⟨m, h⟩⟩ <;>
    subst h <;> simp [isCloseEv]

/-- The selector-wait step never navigates. -/
lemma countGoto_selectorStep (env : Env) (req : ScrapeRequest) (tms : Int) :
    countGoto (selectorStep env req tms) = 0 := by
  unfold countGoto
  rw [List.length_eq_zero, List.filter_eq_nil_iff]
  intro a ha
  rcases mem_selectorStep ha with ⟨s, _, h⟩ | ⟨m, h⟩ <;>
    subst h <;> simp [isGotoEv]

/-- The inner body navigates at most once: no retry. -/
lemma countGoto_innerBody (env : Env) (req : ScrapeRequest) :
    countGoto (innerBody env req).2 ≤ 1 := by
  simp only [innerBody]
  repeat' split
  all_goals
    simp [countGoto_selectorStep, isGotoEv]

/-- `scrapeCore` closes exactly as many browsers as it launches, launches
at most one, and navigates at most once. -/
lemma scrapeCore_counts (env : Env) (req : ScrapeRequest) :
    countClose (scrapeCore env req).2 = countLaunch (scrapeCore env req).2 ∧
    countLaunch (scrapeCore env req).2 ≤ 1 ∧
    countGoto (scrapeCore env req).2 ≤ 1 := by
  unfold scrapeCore tryFinallyClose
  repeat' split
  all_goals
    simp [countLaunch_innerBody, countClose_innerBody, countGoto_innerBody,
      isLaunchEv, isCloseEv, isGotoEv]

/-- When Playwright starts and the launch succeeds, `scrapeCore` launches
exactly one browser and issues exactly one close call, on every exit path. -/
lemma scrapeCore_launch_close_once (env : Env) (req : ScrapeRequest)
    (h1 : env.startPlaywright = .ok ()) (h2 : env.launch = .ok ()) :
    countLaunch (scrapeCore env req).2 = 1 ∧
    countClose (scrapeCore env req).2 = 1 := by
  unfold scrapeCore tryFinallyClose
  rw [h1, h2]
  cases env.close <;>
    simp [countLaunch_innerBody, countClose_innerBody,
      isLaunchEv, isCloseEv]

/-- The outer `except` clauses of `scrape_url` do not touch the browser or
navigation counts of the trace (they only append a log line). -/
lemma scrape_url_counts (env : Env) (req : ScrapeRequest) :
    countLaunch (scrape_url env req).2 = countLaunch (scrapeCore env req).2 ∧
    countClose (scrape_url env req).2 = countClose (scrapeCore env req).2 ∧
    countGoto (scrape_url env req).2 = countGoto (scrapeCore env req).2 := by
  unfold scrape_url
  repeat' split
  all_goals rename_i heq
  all_goals rw [show (scrapeCore env req).2 = _ from congrArg Prod.snd heq]
  all_goals simp [isLaunchEv, isCloseEv, isGotoEv]

/-! ### Result-chain and trace-transfer lemmas -/

/-- A successful inner body always builds its response with `success := true`
and `error` left at its default `None` (src/app.py lines 106-111). -/
lemma innerBody_ok_success {env : Env} {req : ScrapeRequest}
    {resp : ScrapeResponse} (h : (innerBody env req).1 = .ok resp) :
    resp.success = true ∧ resp.error = none := by
  unfold innerBody at h
  repeat' split at h
  all_goals dsimp only at h
  all_goals first
    | (injection h with h2; rw [← h2]; exact ⟨rfl, rfl⟩)
    | injection h

/-- A success of the whole scoped block is a success of the inner body. -/
lemma scrapeCore_ok {env : Env} {req : ScrapeRequest} {resp : ScrapeResponse}
    (h : (scrapeCore env req).1 = .ok resp) :
    (innerBody env req).1 = .ok resp := by
  unfold scrapeCore tryFinallyClose at h
  repeat' split at h
  all_goals simp_all

/-- A success of `scrape_url` is a success of the scoped block. -/
lemma scrape_url_ok {env : Env} {req : ScrapeRequest} {resp : ScrapeResponse}
    (h : (scrape_url env req).1 = .ok resp) :
    (scrapeCore env req).1 = .ok resp := by
  unfold scrape_url at h
  split at h
  all_goals rename_i heq
  · rename_i resp' evs
    rw [show (scrapeCore env req).1 = _ from congrArg Prod.fst heq]
    simpa using h
  · simp at h
  · simp at h

/-- A 200 from the endpoint is a success of `scrape_url` on the parsed
request. -/
lemma scrapeEndpoint_ok {secret : String} {env : Env} {auth : Option String}
    {raw : RawBody} {resp : ScrapeResponse}
    (h : (scrapeEndpoint secret env auth raw).1 = .ok resp) :
    ∃ req, parseScrapeRequest raw = .ok req ∧
      (scrape_url env req).1 = .ok resp := by
  unfold scrapeEndpoint at h
  cases auth with
  | none => simp at h
  | some cred =>
    dsimp only at h
    by_cases hcred : cred ≠ secret
    · rw [if_pos hcred] at h; simp at h
    · rw [if_neg hcred] at h
      cases hp : parseScrapeRequest raw with
      | error u => rw [hp] at h; simp at h
      | ok req =>
        rw [hp] at h
        dsimp only at h
        refine ⟨req, rfl, ?_⟩
        rcases hs : scrape_url env req with ⟨r, evs⟩
        rw [hs] at h
        cases r with
        | ok resp2 => simp at h; simp [h]
        | error e => cases e <;> simp at h

/-- With a correct token and a body that validates, the endpoint's trace is
the handler's trace. -/
lemma scrapeEndpoint_trace_eq (secret : String) (env : Env) (raw : RawBody)
    (req : ScrapeRequest) (hreq : parseScrapeRequest raw = .ok req) :
    (scrapeEndpoint secret env (some secret) raw).2 =
      (scrape_url env req).2 := by
  unfold scrapeEndpoint
  dsimp only
  rw [if_neg (by simp), hreq]
  dsimp only
  rcases hs : scrape_url env req with ⟨r, evs⟩
  cases r with
  | ok resp => simp
  | error e => cases e <;> simp

/-- Every event of the handler's trace is an event of the scoped block or a
final `logError` line. -/
lemma mem_scrape_url {env : Env} {req : ScrapeRequest} {e : Event}
    (h : e ∈ (scrape_url env req).2) :
    e ∈ (scrapeCore env req).2 ∨ ∃ m, e = .logError m := by
  unfold scrape_url at h
  rcases hsc : scrapeCore env req with ⟨r, evs⟩
  rw [hsc] at h
  have hevs : (scrapeCore env req).2 = evs := by rw [hsc]
  cases r with
  | ok resp => simp at h; exact Or.inl (hevs ▸ h)
  | error ex =>
    cases ex with
    | asyncioTimeoutError => simp at h; exact Or.inl (hevs ▸ h)
    | httpException s d hd =>
      simp at h
      rcases h with h | h
      · exact Or.inl (hevs ▸ h)
      · exact Or.inr ⟨_, h⟩
    | pythonError m =>
      simp at h
      rcases h with h | h
      · exact Or.inl (hevs ▸ h)
      · exact Or.inr ⟨_, h⟩

/-- Every event of the scoped block's trace is the launch, the close, or an
event of the inner body. -/
lemma mem_scrapeCore {env : Env} {req : ScrapeRequest} {e : Event}
    (h : e ∈ (scrapeCore env req).2) :
    e = .launchBrowser ∨ e = .closeBrowser ∨ e ∈ (innerBody env req).2 := by
  unfold scrapeCore tryFinallyClose at h
  cases hsp : env.startPlaywright with
  | error _ => rw [hsp] at h; simp at h
  | ok _ =>
  rw [hsp] at h
  cases hl : env.launch with
  | error _ => rw [hl] at h; simp at h
  | ok _ =>
  rw [hl] at h
  cases hc : env.close with
  | ok _ =>
    rw [hc] at h; simp at h
    rcases h with h | h | h
    · exact Or.inl h
    · exact Or.inr (Or.inr h)
    · exact Or.inr (Or.inl h)
  | error _ =>
    rw [hc] at h; simp at h
    rcases h with h | h | h
    · exact Or.inl h
    · exact Or.inr (Or.inr h)
    · exact Or.inr (Or.inl h)

/-- The result of the inner body on the all-success path: the response is
built from the page content, the echoed URL and the navigation status, with
no dependence on the selector wait's outcome. -/
lemma innerBody_result_success (env : Env) (req : ScrapeRequest) (t st : Int)
    (hc : String) (htm : req.timeout = some t)
    (h3 : env.newPage = .ok ()) (h4 : env.setViewport = .ok ())
    (h5 : env.goto = .ok (some st)) (h6 : env.sleep = .ok ())
    (h7 : env.content = .ok hc) :
    (innerBody env req).1 =
      .ok { html := hc, url := req.url, status_code := st
            success := true, error := none } := by
  unfold innerBody
  rw [h3, h4, htm, h5]
  dsimp only
  by_cases hsl : sleepTruthy req.wait_time
  · rw [if_pos hsl]
    cases hwt : req.wait_time with
    | none => rw [hwt] at hsl; simp [sleepTruthy] at hsl
    | some w => rw [h6, h7]
  · rw [if_neg hsl, h7]

/-- The endpoint's behaviour when the inner body succeeds and so do the
launch, start and close: the response is passed through and the trace is
launch, inner events, close. -/
lemma scrapeEndpoint_of_innerBody_ok (secret : String) (env : Env)
    (raw : RawBody) (req : ScrapeRequest) (resp : ScrapeResponse)
    (hreq : parseScrapeRequest raw = .ok req)
    (h1 : env.startPlaywright = .ok ()) (h2 : env.launch = .ok ())
    (h8 : env.close = .ok ())
    (hib : (innerBody env req).1 = .ok resp) :
    (scrapeEndpoint secret env (some secret) raw).1 = .ok resp ∧
    (scrapeEndpoint secret env (some secret) raw).2 =
      Event.launchBrowser :: (innerBody env req).2 ++ [Event.closeBrowser] := by
  have hcore : scrapeCore env req =
      (.ok resp, Event.launchBrowser :: (innerBody env req).2 ++
        [Event.closeBrowser]) := by
    unfold scrapeCore tryFinallyClose
    rw [h1, h2, h8]
    dsimp only
    rw [hib]
  have hurl : scrape_url env req =
      (.ok resp, Event.launchBrowser :: (innerBody env req).2 ++
        [Event.closeBrowser]) := by
    unfold scrape_url
    rw [hcore]
  unfold scrapeEndpoint
  dsimp only
  rw [if_neg (by simp), hreq]
  dsimp only
  rw [hurl]
  exact ⟨rfl, rfl⟩

example : parseScrapeRequest rawBase = .ok reqBase := by decide

/-! ### Claim C1 -/

/-- A request asking to wait for the selector `#main`. -/
def rawWithSelector : RawBody :=
  { rawBase with wait_for_selector := .given "#main" }

/-- An environment in which the selector wait exceeds its budget and raises
a timeout error, while everything else succeeds. -/
def selTimeoutEnv : Env :=
  { okEnv with waitForSelector := .error .asyncioTimeoutError }

/-- C1, counterexample: a request whose *selector wait* exceeds its time
budget does **not** yield HTTP 408 — the exception is swallowed by the
inner `try`/`except` (src/app.py lines 91-97) and the request completes
with HTTP 200.  (This holds even when the selector timeout is modelled as
`asyncio.TimeoutError` itself, the most favourable case for the claim.) -/
theorem selector_timeout_not_408 :
    (scrapeEndpoint "s" selTimeoutEnv (some "s") rawWithSelector).1.statusOf
        = 200 ∧
    (scrapeEndpoint "s" selTimeoutEnv (some "s") rawWithSelector).1.statusOf
        ≠ 408 := by
  decide

/-- C1 (amended): for every request whose **navigation** raises
`asyncio.TimeoutError` within the handler (and whose browser close
succeeds), the `/scrape` endpoint returns HTTP 408 with the timeout
message; it does not hang and does not map this timeout to a different
status code.  (A selector-wait timeout, by contrast, is swallowed and never
produces 408.) -/
theorem nav_asyncio_timeout_yields_408 (secret : String) (env : Env)
    (raw : RawBody) (req : ScrapeRequest) (t : Int)
    (hreq : parseScrapeRequest raw = .ok req) (htm : req.timeout = some t)
    (h1 : env.startPlaywright = .ok ()) (h2 : env.launch = .ok ())
    (h3 : env.newPage = .ok ()) (h4 : env.setViewport = .ok ())
    (h5 : env.goto = .error .asyncioTimeoutError)
    (h8 : env.close = .ok ()) :
    (scrapeEndpoint secret env (some secret) raw).1 =
      .err 408 ("Request timeout after " ++ toString t ++ " seconds") [] := by
  have hib : innerBody env req =
      (.error Exn.asyncioTimeoutError, [Event.gotoCalled (t * 1000)]) := by
    unfold innerBody
    rw [h3, h4, htm, h5]
  have hcore : (scrapeCore env req).1 = .error Exn.asyncioTimeoutError := by
    unfold scrapeCore tryFinallyClose
    rw [h1, h2, h8]
    dsimp only
    rw [hib]
  have hurl : (scrape_url env req).1 =
      .error (.httpException 408
        ("Request timeout after " ++ pyStrOptInt req.timeout ++ " seconds")
        []) := by
    unfold scrape_url
    rcases hs : scrapeCore env req with ⟨r, evs⟩
    rw [hs] at hcore
    dsimp only at hcore
    rw [hcore]
  unfold scrapeEndpoint
  dsimp only
  rw [if_neg (by simp), hreq]
  dsimp only
  rcases hu : scrape_url env req with ⟨r, evs⟩
  rw [hu] at hurl
  dsimp only at hurl
  subst hurl
  rw [htm]
  rfl

/-- An environment in which the navigation raises `asyncio.TimeoutError`. -/
def navTimeoutEnv : Env :=
  { okEnv with goto := .error .asyncioTimeoutError }

/-- C1 amended claim, witnessed at a concrete input. -/
theorem nav_asyncio_timeout_yields_408_w :
    (scrapeEndpoint "s" navTimeoutEnv (some "s") rawBase).1 =
      .err 408 ("Request timeout after " ++ toString (30 : Int) ++
        " seconds") [] :=
  nav_asyncio_timeout_yields_408 "s" navTimeoutEnv rawBase reqBase 30
    (by decide) rfl rfl rfl rfl rfl rfl rfl

/-! ### Claim C4 -/

/-- C4: on every request, the trace contains exactly as many browser-close
calls as browser launches and at most one launch (so no browser survives
the request and none is closed twice); and whenever the handler body runs
(correct token, valid body) and the launch succeeds, there is exactly one
launch and exactly one close, regardless of which exit path is taken. -/
theorem browser_launch_close_balanced (secret : String) (env : Env)
    (auth : Option String) (raw : RawBody) :
    countClose (scrapeEndpoint secret env auth raw).2 =
      countLaunch (scrapeEndpoint secret env auth raw).2 ∧
    countLaunch (scrapeEndpoint secret env auth raw).2 ≤ 1 ∧
    (auth = some secret → ∀ req, parseScrapeRequest raw = .ok req →
      env.startPlaywright = .ok () → env.launch = .ok () →
      countLaunch (scrapeEndpoint secret env auth raw).2 = 1 ∧
      countClose (scrapeEndpoint secret env auth raw).2 = 1) := by
  by_cases hgood : auth = some secret ∧
      ∃ req, parseScrapeRequest raw = .ok req
  · obtain ⟨ha, req, hp⟩ := hgood
    subst ha
    have ht := scrapeEndpoint_trace_eq secret env raw req hp
    rw [ht]
    have hc := scrape_url_counts env req
    have hcc := scrapeCore_counts env req
    refine ⟨by rw [hc.2.1, hc.1]; exact hcc.1,
            by rw [hc.1]; exact hcc.2.1, ?_⟩
    intro _ req2 hreq2 h1 h2
    have hr : req = req2 := by rw [hp] at hreq2; injection hreq2
    subst hr
    have ho := scrapeCore_launch_close_once env req h1 h2
    exact ⟨by rw [hc.1]; exact ho.1, by rw [hc.2.1]; exact ho.2⟩
  · push_neg at hgood
    have htr : (scrapeEndpoint secret env auth raw).2 = [] := by
      unfold scrapeEndpoint
      cases auth with
      | none => rfl
      | some cred =>
        dsimp only
        by_cases hcred : cred ≠ secret
        · rw [if_pos hcred]
        · have hcs : cred = secret := not_ne_iff.mp hcred
          subst hcs
          rw [if_neg (by simp)]
          cases hp : parseScrapeRequest raw with
          | error u => rfl
          | ok req => exact absurd hp (hgood rfl req)
    rw [htr]
    refine ⟨rfl, by simp, ?_⟩
    intro ha req hreq _ _
    exact absurd hreq (hgood ha req)

/-- C4, witnessed at a concrete input: on the all-success path there is
exactly one launch and one close. -/
theorem browser_launch_close_balanced_w :
    countLaunch (scrapeEndpoint "s" okEnv (some "s") rawBase).2 = 1 ∧
    countClose (scrapeEndpoint "s" okEnv (some "s") rawBase).2 = 1 :=
  (browser_launch_close_balanced "s" okEnv (some "s") rawBase).2.2
    rfl reqBase (by decide) rfl rfl

/-! ### Claim C5 -/

/-- C5: an authenticated request whose selector never appears within the
budget (the wait raises any exception `ex`) still completes with HTTP 200
and the page's HTML; the miss is only logged as a warning, never
propagated. -/
theorem selector_miss_nonfatal (secret : String) (env : Env) (raw : RawBody)
    (req : ScrapeRequest) (t st : Int) (hc s : String) (ex : Exn)
    (hreq : parseScrapeRequest raw = .ok req) (htm : req.timeout = some t)
    (hsel : req.wait_for_selector = some s) (hs : s ≠ "")
    (h1 : env.startPlaywright = .ok ()) (h2 : env.launch = .ok ())
    (h3 : env.newPage = .ok ()) (h4 : env.setViewport = .ok ())
    (h5 : env.goto = .ok (some st))
    (hw : env.waitForSelector = .error ex)
    (h6 : env.sleep = .ok ()) (h7 : env.content = .ok hc)
    (h8 : env.close = .ok ()) :
    (scrapeEndpoint secret env (some secret) raw).1 =
      .ok { html := hc, url := req.url, status_code := st
            success := true, error := none } ∧
    Event.logWarning ("Selector " ++ s ++ " not found: " ++ exnStr ex) ∈
      (scrapeEndpoint secret env (some secret) raw).2 := by
  have hib := innerBody_result_success env req t st hc htm h3 h4 h5 h6 h7
  have hmain := scrapeEndpoint_of_innerBody_ok secret env raw req _
    hreq h1 h2 h8 hib
  refine ⟨hmain.1, ?_⟩
  rw [hmain.2]
  have hselmem : Event.logWarning
      ("Selector " ++ s ++ " not found: " ++ exnStr ex) ∈
      selectorStep env req (t * 1000) := by
    unfold selectorStep
    rw [hsel]
    dsimp only
    rw [if_pos hs, hw]
    simp
  have hin : Event.logWarning
      ("Selector " ++ s ++ " not found: " ++ exnStr ex) ∈
      (innerBody env req).2 := by
    unfold innerBody
    rw [h3, h4, htm, h5]
    dsimp only
    by_cases hsl : sleepTruthy req.wait_time
    · rw [if_pos hsl]
      cases hwt : req.wait_time with
      | none => rw [hwt] at hsl; simp [sleepTruthy] at hsl
      | some w =>
        rw [h6, h7]
        dsimp only
        simp [hselmem]
    · rw [if_neg hsl, h7]
      dsimp only
      simp [hselmem]
  simp [hin]

/-- The parsed form of `rawWithSelector`. -/
def reqSel : ScrapeRequest :=
  { url := "https://example.com", wait_for_selector := some "#main"
    wait_time := some 3, timeout := some 30 }

/-- C5, witnessed at a concrete input: the selector wait times out, yet the
response is a 200 carrying the page HTML, and the warning is logged. -/
theorem selector_miss_nonfatal_w :
    (scrapeEndpoint "s" selTimeoutEnv (some "s") rawWithSelector).1 =
      .ok { html := "<html><body>hi</body></html>"
            url := "https://example.com", status_code := 200
            success := true, error := none } ∧
    Event.logWarning ("Selector " ++ "#main" ++ " not found: " ++
        exnStr .asyncioTimeoutError) ∈
      (scrapeEndpoint "s" selTimeoutEnv (some "s") rawWithSelector).2 :=
  selector_miss_nonfatal "s" selTimeoutEnv rawWithSelector reqSel 30 200
    "<html><body>hi</body></html>" "#main" .asyncioTimeoutError
    (by decide) rfl rfl (by decide) rfl rfl rfl rfl rfl rfl rfl rfl rfl

/-! ### Claim C6 -/

/-- C6: for every valid request with the correct token where navigation
returns a response with status `st` and the page serializes to `hc`, the
endpoint returns the `ScrapeResponse` with `url` echoing the request URL,
`success = true`, `html = hc` and `status_code = st` — independently of the
selector wait's outcome. -/
theorem success_response_fields (secret : String) (env : Env)
    (raw : RawBody) (req : ScrapeRequest) (t st : Int) (hc : String)
    (hreq : parseScrapeRequest raw = .ok req) (htm : req.timeout = some t)
    (h1 : env.startPlaywright = .ok ()) (h2 : env.launch = .ok ())
    (h3 : env.newPage = .ok ()) (h4 : env.setViewport = .ok ())
    (h5 : env.goto = .ok (some st)) (h6 : env.sleep = .ok ())
    (h7 : env.content = .ok hc) (h8 : env.close = .ok ()) :
    (scrapeEndpoint secret env (some secret) raw).1 =
      .ok { html := hc, url := req.url, status_code := st
            success := true, error := none } :=
  (scrapeEndpoint_of_innerBody_ok secret env raw req _ hreq h1 h2 h8
    (innerBody_result_success env req t st hc htm h3 h4 h5 h6 h7)).1

/-- C6, witnessed at a concrete input. -/
theorem success_response_fields_w :
    (scrapeEndpoint "s" okEnv (some "s") rawBase).1 =
      .ok { html := "<html><body>hi</body></html>"
            url := "https://example.com", status_code := 200
            success := true, error := none } :=
  success_response_fields "s" okEnv rawBase reqBase 30 200
    "<html><body>hi</body></html>" (by decide) rfl rfl rfl rfl rfl rfl rfl
    rfl rfl

/-! ### Claim C9 -/

/-- C9: every `ScrapeResponse` the endpoint actually returns (an HTTP 200)
has `success = true` and `error = None` — the only construction site is the
success path at src/app.py lines 106-111, which sets `success=True` and
leaves `error` at its default; every failure becomes an `HTTPException`
instead. -/
theorem returned_response_success_true_error_none (secret : String)
    (env : Env) (auth : Option String) (raw : RawBody)
    (resp : ScrapeResponse)
    (h : (scrapeEndpoint secret env auth raw).1 = .ok resp) :
    resp.success = true ∧ resp.error = none := by
  obtain ⟨req, _, hurl⟩ := scrapeEndpoint_ok h
  exact innerBody_ok_success (scrapeCore_ok (scrape_url_ok hurl))

/-- C9, witnessed at a concrete input. -/
theorem returned_response_success_true_error_none_w :
    ({ html := "<html><body>hi</body></html>", url := "https://example.com"
       status_code := 200, success := true, error := none } :
        ScrapeResponse).success = true ∧
    ({ html := "<html><body>hi</body></html>", url := "https://example.com"
       status_code := 200, success := true, error := none } :
        ScrapeResponse).error = none :=
  returned_response_success_true_error_none "s" okEnv (some "s") rawBase
    { html := "<html><body>hi</body></html>", url := "https://example.com"
      status_code := 200, success := true, error := none } (by decide)

/-! ### Claim C7 -/

/-- C7: any failure `e` during scraping other than an
`asyncio.TimeoutError` (and other than the navigation-failure
`HTTPException(400)` which the claim scopes out, and the auth failure
which never reaches the handler body) is returned as HTTP 500 with the
exception's message embedded in the detail, after logging an error line
containing the offending URL; and no retry happens — the trace holds at
most one navigation and at most one launch. -/
theorem unexpected_error_yields_500 (secret : String) (env : Env)
    (raw : RawBody) (req : ScrapeRequest) (e : Exn)
    (hreq : parseScrapeRequest raw = .ok req)
    (hcore : (scrapeCore env req).1 = .error e)
    (hnt : e ≠ .asyncioTimeoutError)
    (hnn : e ≠ .httpException 400 "Failed to load the page" []) :
    (scrapeEndpoint secret env (some secret) raw).1 =
      .err 500 ("Scraping failed: " ++ exnStr e) [] ∧
    Event.logError ("Scraping error for " ++ req.url ++ ": " ++ exnStr e) ∈
      (scrapeEndpoint secret env (some secret) raw).2 ∧
    countGoto (scrapeEndpoint secret env (some secret) raw).2 ≤ 1 ∧
    countLaunch (scrapeEndpoint secret env (some secret) raw).2 ≤ 1 := by
  rcases hsc : scrapeCore env req with ⟨r, evs⟩
  rw [hsc] at hcore
  dsimp only at hcore
  subst hcore
  have hurl : scrape_url env req =
      (.error (.httpException 500 ("Scraping failed: " ++ exnStr e) []),
       evs ++ [Event.logError
         ("Scraping error for " ++ req.url ++ ": " ++ exnStr e)]) := by
    unfold scrape_url
    rw [hsc]
    cases e with
    | asyncioTimeoutError => exact absurd rfl hnt
    | httpException s d hd => rfl
    | pythonError m => rfl
  have ht := scrapeEndpoint_trace_eq secret env raw req hreq
  have hcu := scrape_url_counts env req
  have hcc := scrapeCore_counts env req
  refine ⟨?_, ?_, ?_, ?_⟩
  · unfold scrapeEndpoint
    dsimp only
    rw [if_neg (by simp), hreq]
    dsimp only
    rw [hurl]
  · rw [ht, hurl]
    simp
  · rw [ht, hcu.2.2]
    exact hcc.2.2
  · rw [ht, hcu.1]
    exact hcc.2.1

/-- An environment in which `page.content()` raises an unexpected
exception. -/
def contentFailEnv : Env :=
  { okEnv with content := .error (.pythonError "boom") }

/-- C7, witnessed at a concrete input. -/
theorem unexpected_error_yields_500_w :
    (scrapeEndpoint "s" contentFailEnv (some "s") rawBase).1 =
      .err 500 ("Scraping failed: " ++ exnStr (.pythonError "boom")) [] ∧
    Event.logError ("Scraping error for " ++ reqBase.url ++ ": " ++
        exnStr (.pythonError "boom")) ∈
      (scrapeEndpoint "s" contentFailEnv (some "s") rawBase).2 ∧
    countGoto (scrapeEndpoint "s" contentFailEnv (some "s") rawBase).2 ≤ 1 ∧
    countLaunch (scrapeEndpoint "s" contentFailEnv (some "s") rawBase).2
      ≤ 1 :=
  unexpected_error_yields_500 "s" contentFailEnv rawBase reqBase
    (.pythonError "boom") (by decide) (by decide) (by decide) (by decide)

/-! ### Claim C8 -/

/-- C8: every navigation call and every selector wait in a request's trace
carries a deadline of exactly `timeout * 1000` milliseconds, i.e. `timeout`
seconds; and when the `timeout` field is absent from the body, the parsed
value is the default 30. -/
theorem timeout_budget_is_request_timeout (secret : String) (env : Env)
    (raw : RawBody) (req : ScrapeRequest) (t : Int)
    (hreq : parseScrapeRequest raw = .ok req)
    (htm : req.timeout = some t) :
    (∀ ms, Event.gotoCalled ms ∈
        (scrapeEndpoint secret env (some secret) raw).2 →
      ms = t * 1000) ∧
    (∀ s ms, Event.waitSelectorCalled s ms ∈
        (scrapeEndpoint secret env (some secret) raw).2 →
      ms = t * 1000) ∧
    (raw.timeout = .absent → t = 30) := by
  have ht := scrapeEndpoint_trace_eq secret env raw req hreq
  refine ⟨?_, ?_, ?_⟩
  · intro ms hm
    rw [ht] at hm
    rcases mem_scrape_url hm with hm | ⟨m, hmm⟩
    · rcases mem_scrapeCore hm with h | h | h
      · simp at h
      · simp at h
      · rcases mem_innerBody h with ⟨t2, htm2, hcase⟩
        rw [htm] at htm2
        injection htm2 with ht2
        subst ht2
        rcases hcase with hg | ⟨s, _, hg⟩ | ⟨w2, _, _, hg⟩ | ⟨m, hg⟩
        · injection hg
        · simp at hg
        · simp at hg
        · simp at hg
    · simp at hmm
  · intro s ms hm
    rw [ht] at hm
    rcases mem_scrape_url hm with hm | ⟨m, hmm⟩
    · rcases mem_scrapeCore hm with h | h | h
      · simp at h
      · simp at h
      · rcases mem_innerBody h with ⟨t2, htm2, hcase⟩
        rw [htm] at htm2
        injection htm2 with ht2
        subst ht2
        rcases hcase with hg | ⟨s2, _, hg⟩ | ⟨w2, _, _, hg⟩ | ⟨m, hg⟩
        · simp at hg
        · injection hg with hg1 hg2
        · simp at hg
        · simp at hg
    · simp at hmm
  · intro habs
    have hts : req.timeout = some 30 := by
      unfold parseScrapeRequest at hreq
      cases hu : raw.url with
      | absent => rw [hu] at hreq; simp at hreq
      | null => rw [hu] at hreq; simp at hreq
      | given u =>
        rw [hu] at hreq
        dsimp only at hreq
        by_cases hok : isHttpUrl u
        · rw [if_pos hok] at hreq
          injection hreq with h2
          rw [← h2]
          dsimp only
          rw [habs]
        · rw [if_neg hok] at hreq; simp at hreq
    rw [hts] at htm
    injection htm with h4
    exact h4.symm

/-- C8, witnessed at a concrete input: the default budget is 30 s, i.e.
30000 ms on the navigation call. -/
theorem timeout_budget_is_request_timeout_w :
    (∀ ms, Event.gotoCalled ms ∈
        (scrapeEndpoint "s" okEnv (some "s") rawBase).2 →
      ms = 30 * 1000) ∧
    (∀ s ms, Event.waitSelectorCalled s ms ∈
        (scrapeEndpoint "s" okEnv (some "s") rawBase).2 →
      ms = 30 * 1000) ∧
    (rawBase.timeout = .absent → (30 : Int) = 30) :=
  timeout_budget_is_request_timeout "s" okEnv rawBase reqBase 30
    (by decide) rfl

/-! ### Claim C10 -/

/-- C10: the schema enforces no sign constraints — a body with
`wait_time ≤ 0` and `timeout ≤ 0` is accepted as-is; a non-positive
`wait_time` causes no post-navigation sleep on any execution, and the
non-positive `timeout` is passed through unchanged to the navigation
deadline (`timeout * 1000` ms). -/
theorem no_sign_validation (u : String) (sel : JField String) (w t : Int)
    (hu : isHttpUrl u = true) (hw : w ≤ 0) (ht : t ≤ 0) :
    ∃ req, parseScrapeRequest
        { url := .given u, wait_for_selector := sel
          wait_time := .given w, timeout := .given t } = .ok req ∧
      req.wait_time = some w ∧ req.timeout = some t ∧
      ∀ env : Env,
        (∀ sc, Event.sleepCalled sc ∉ (scrape_url env req).2) ∧
        (∀ ms, Event.gotoCalled ms ∈ (scrape_url env req).2 →
          ms = t * 1000) := by
  refine ⟨{ url := u
            wait_for_selector := match sel with
              | .absent => none
              | .null => none
              | .given s => some s
            wait_time := some w, timeout := some t }, ?_, rfl, rfl, ?_⟩
  · unfold parseScrapeRequest
    dsimp only
    rw [if_pos hu]
  · intro env
    constructor
    · intro sc hmem
      rcases mem_scrape_url hmem with hm | ⟨m, hmm⟩
      · rcases mem_scrapeCore hm with h | h | h
        · simp at h
        · simp at h
        · rcases mem_innerBody h with ⟨t2, _, hcase⟩
          rcases hcase with hg | ⟨s2, _, hg⟩ | ⟨w2, hw2, hpos, hg⟩ |
            ⟨m, hg⟩
          · simp at hg
          · simp at hg
          · simp only [Option.some.injEq] at hw2
            omega
          · simp at hg
      · simp at hmm
    · intro ms hmem
      rcases mem_scrape_url hmem with hm | ⟨m, hmm⟩
      · rcases mem_scrapeCore hm with h | h | h
        · simp at h
        · simp at h
        · rcases mem_innerBody h with ⟨t2, htm2, hcase⟩
          simp only [Option.some.injEq] at htm2
          subst htm2
          rcases hcase with hg | ⟨s2, _, hg⟩ | ⟨w2, _, _, hg⟩ | ⟨m, hg⟩
          · injection hg
          · simp at hg
          · simp at hg
          · simp at hg
      · simp at hmm

/-- C10, witnessed at a concrete input: `wait_time = -5`, `timeout = -7`
are accepted and behave as stated. -/
theorem no_sign_validation_w :
    ∃ req, parseScrapeRequest
        { url := .given "https://example.com", wait_for_selector := .absent
          wait_time := .given (-5), timeout := .given (-7) } = .ok req ∧
      req.wait_time = some (-5) ∧ req.timeout = some (-7) ∧
      ∀ env : Env,
        (∀ sc, Event.sleepCalled sc ∉ (scrape_url env req).2) ∧
        (∀ ms, Event.gotoCalled ms ∈ (scrape_url env req).2 →
          ms = -7 * 1000) :=
  no_sign_validation "https://example.com" .absent (-5) (-7)
    (by decide) (by decide) (by decide)

/-! ### Claim C2 -/

/-- An environment in which navigation completes but `page.goto` returns
`None` (no response object). -/
def nullRespEnv : Env := { okEnv with goto := .ok none }

/-- C2 (code bug): when `page.goto` returns no response object, the
handler raises `HTTPException(400, "Failed to load the page")`
(src/app.py lines 83-87) — but that exception is itself an `Exception`, so
the blanket `except Exception` clause at line 121 catches it and re-raises
it as HTTP **500** with detail `Scraping failed: 400: Failed to load the
page`.  The client never sees the intended 400. -/
theorem null_response_yields_500_not_400 :
    (scrapeEndpoint "s" nullRespEnv (some "s") rawBase).1 =
      .err 500 "Scraping failed: 400: Failed to load the page" [] ∧
    (scrapeEndpoint "s" nullRespEnv (some "s") rawBase).1.statusOf ≠ 400 := by
  decide

/-! ### Claim C3 -/

/-- C3, counterexample: a request with a **missing** bearer token is
rejected by the `HTTPBearer` security dependency (line 15, default
`auto_error=True`) with HTTP 403 and no `WWW-Authenticate` header — not
with 401 as the claim states. -/
theorem missing_token_yields_403 :
    (scrapeEndpoint "s" okEnv none rawBase).1 =
      .err 403 "Not authenticated" [] ∧
    (scrapeEndpoint "s" okEnv none rawBase).1.statusOf ≠ 401 := by
  decide

/-- C3 (amended): for every request presenting a bearer token different
from the configured secret, the response is HTTP 401 with a
`WWW-Authenticate: Bearer` challenge header, regardless of the request
body's validity and of anything the browser environment would do (the
handler body never runs).  A request with a *missing* bearer token is
instead rejected with 403 by the `HTTPBearer` dependency. -/
theorem invalid_token_yields_401 (secret : String) (env : Env)
    (cred : String) (raw : RawBody) (h : cred ≠ secret) :
    (scrapeEndpoint secret env (some cred) raw).1 =
      .err 401 "Invalid authentication token"
        [("WWW-Authenticate", "Bearer")] ∧
    (scrapeEndpoint secret env (some cred) raw).2 = [] := by
  unfold scrapeEndpoint
  dsimp only
  rw [if_pos h]
  exact ⟨rfl, rfl⟩

/-- C3 amended claim, witnessed at a concrete input: wrong token, invalid
body (no `url` field). -/
theorem invalid_token_yields_401_w :
    (scrapeEndpoint "s" okEnv (some "wrong") ⟨.absent, .absent, .absent,
      .absent⟩).1 =
      .err 401 "Invalid authentication token"
        [("WWW-Authenticate", "Bearer")] ∧
    (scrapeEndpoint "s" okEnv (some "wrong") ⟨.absent, .absent, .absent,
      .absent⟩).2 = [] :=
  invalid_token_yields_401 "s" okEnv "wrong"
    ⟨.absent, .absent, .absent, .absent⟩ (by decide)

example :
    (scrapeEndpoint "s" okEnv (some "s") rawBase).1 =
      .ok { html := "<html><body>hi</body></html>"
            url := "https://example.com", status_code := 200
            success := true, error := none } := by decide

example :
    (scrapeEndpoint "s" okEnv (some "s") rawBase).2 =
      [Event.launchBrowser, Event.gotoCalled 30000, Event.sleepCalled 3,
       Event.closeBrowser] := by decide

end HtmlScraper
